import Mathlib

/-!
# Verification of SeleniumLibrary cookie keywords and the failure hook

Shallow embedding of the code in `src/SeleniumLibrary/__init__.py`
(`run_keyword`, `failure_occurred`) and
`src/SeleniumLibrary/keywords/cookie.py` (`CookieKeywords`,
`CookieInformation`), together with proofs about the claims of the
design specification.

Python dictionaries are modelled as association lists with first-binding
lookup, Python runtime values as the inductive `PyValue`, Python
exceptions as `Except PyErr`, and `datetime.datetime` as a civil
calendar timestamp in UTC.
-/

namespace SeleniumSpec

/-- Civil-calendar timestamp mirroring Python `datetime.datetime`
(modelled in UTC; only the fields the cookie code touches). -/
structure Datetime where
  year : Int
  month : Nat
  day : Nat
  hour : Nat
  minute : Nat
  second : Nat
  deriving Repr, DecidableEq

/-- Number of days from 1970-01-01 to the given civil date in the
proleptic Gregorian calendar (the standard days-from-civil algorithm). -/
def daysFromCivil (y : Int) (m d : Nat) : Int :=
  let yi : Int := if m ≤ 2 then y - 1 else y
  let era : Int := yi.fdiv 400
  let yoe : Nat := (yi - era * 400).toNat
  let mp : Nat := if 2 < m then m - 3 else m + 9
  let doy : Nat := (153 * mp + 2) / 5 + d - 1
  let doe : Nat := yoe * 365 + yoe / 4 - yoe / 100 + doy
  era * 146097 + (doe : Int) - 719468

/-- Inverse of `daysFromCivil`: days since 1970-01-01 to (year, month, day). -/
def civilFromDays (z : Int) : Int × Nat × Nat :=
  let z1 : Int := z + 719468
  let era : Int := z1.fdiv 146097
  let doe : Nat := (z1 - era * 146097).toNat
  let yoe : Nat := (doe - doe / 1460 + doe / 36524 - doe / 146096) / 365
  let doy : Nat := doe - (365 * yoe + yoe / 4 - yoe / 100)
  let mp : Nat := (5 * doy + 2) / 153
  let d : Nat := doy - (153 * mp + 2) / 5 + 1
  let m : Nat := if mp < 10 then mp + 3 else mp - 9
  ((if m ≤ 2 then era * 400 + yoe + 1 else era * 400 + yoe), m, d)

/-- Python `datetime.fromtimestamp`, modelled in UTC: epoch seconds to a
calendar timestamp. -/
def Datetime.fromtimestamp (e : Int) : Datetime :=
  let days := e.fdiv 86400
  let secs : Nat := (e.emod 86400).toNat
  let c := civilFromDays days
  ⟨c.1, c.2.1, c.2.2, secs / 3600, secs % 3600 / 60, secs % 60⟩

/-- A Python runtime value as it appears in cookie dictionaries and in
keyword arguments: strings, integers, booleans, `None`, and
`datetime.datetime` objects. -/
inductive PyValue where
  | str (s : String)
  | int (n : Int)
  | bool (b : Bool)
  | none
  | datetime (d : Datetime)
  deriving Repr, DecidableEq

/-- The Python exception kinds the embedded code can raise.
`cookieNotFound` models `SeleniumLibrary.errors.CookieNotFound`. -/
inductive PyErr where
  | valueError (msg : String)
  | typeError (msg : String)
  | keyError (msg : String)
  | cookieNotFound (msg : String)
  deriving Repr, DecidableEq

instance {ε α : Type _} [DecidableEq ε] [DecidableEq α] : DecidableEq (Except ε α) := fun a b =>
  match a, b with
  | Except.ok x, Except.ok y =>
      if h : x = y then isTrue (h ▸ rfl) else isFalse (fun hc => h (Except.ok.inj hc))
  | Except.error x, Except.error y =>
      if h : x = y then isTrue (h ▸ rfl) else isFalse (fun hc => h (Except.error.inj hc))
  | Except.ok _, Except.error _ => isFalse (fun hc => Except.noConfusion hc)
  | Except.error _, Except.ok _ => isFalse (fun hc => Except.noConfusion hc)

/-- Plain Python truthiness, as used by the bare `if expiry` test in
`CookieInformation.__init__` and the `if not cookie` test in `get_cookie`. -/
def pyTruthy : PyValue → Bool
  | PyValue.str s => s ≠ ""
  | PyValue.int n => n ≠ 0
  | PyValue.bool b => b
  | PyValue.none => false
  | PyValue.datetime _ => true

/-- Python `str.lower` on the ASCII keyword strings the code compares
against. -/
def pyLower (s : String) : String :=
  ⟨s.data.map Char.toLower⟩

/-- Modelled from the spec: `SeleniumLibrary.utils.is_truthy` is not under
src/. Spec section 6: an empty string and the strings false, no, none
(case-insensitively) are false, every other non-empty string is true,
and native boolean or numeric-zero semantics apply otherwise. -/
def is_truthy : PyValue → Bool
  | PyValue.str s => !(["", "false", "no", "none"].contains (pyLower s))
  | PyValue.int n => n ≠ 0
  | PyValue.bool b => b
  | PyValue.none => false
  | PyValue.datetime _ => true

/-- Modelled from the spec: `SeleniumLibrary.utils.is_noney` is not under
src/. Spec section 4.6 distinguishes fields the caller left unset; an
argument is unset when it is `None` or the string none (case-insensitively). -/
def is_noney : PyValue → Bool
  | PyValue.none => true
  | PyValue.str s => pyLower s == "none"
  | _ => false

/-- Python dict lookup on the association-list model of a dict
(first binding wins). -/
def dictGet (k : String) : List (String × PyValue) → Option PyValue
  | [] => Option.none
  | kv :: rest => if kv.1 = k then some kv.2 else dictGet k rest

/-- Strips leading space characters from a character list. -/
def dropSpaces : List Char → List Char
  | [] => []
  | c :: cs => if c = ' ' then dropSpaces cs else c :: cs

/-- Strips surrounding space characters, as Python `int(str)` does before
parsing (tabs and newlines are elided). -/
def stripSpaces (cs : List Char) : List Char :=
  (dropSpaces (dropSpaces cs).reverse).reverse

/-- Value of a nonempty all-digit character list; `none` on anything else. -/
def digitsVal (acc : Nat) : List Char → Option Nat
  | [] => some acc
  | c :: cs =>
      if c.isDigit then digitsVal (acc * 10 + (c.toNat - 48)) cs else Option.none

/-- Parses a nonempty decimal-digit run. -/
def strDigits : List Char → Option Nat
  | [] => Option.none
  | cs => digitsVal 0 cs

/-- Integer-literal parsing done by Python `int(str)`: optional
surrounding whitespace, optional sign, one or more decimal digits. -/
def pyIntOfString (s : String) : Option Int :=
  match stripSpaces s.data with
  | '-' :: cs => (strDigits cs).map (fun n => -(n : Int))
  | '+' :: cs => (strDigits cs).map (fun n => (n : Int))
  | cs => (strDigits cs).map (fun n => (n : Int))

/-- Python builtin `int()` on the values `_expiry` can receive: strings
that are not integer literals raise `ValueError`, non-numeric objects
such as `None` or `datetime` raise `TypeError`. -/
def pyInt : PyValue → Except PyErr Int
  | PyValue.str s =>
      match pyIntOfString s with
      | some n => Except.ok n
      | Option.none => Except.error (PyErr.valueError "invalid literal for int")
  | PyValue.int n => Except.ok n
  | PyValue.bool b => Except.ok (if b then 1 else 0)
  | PyValue.none => Except.error (PyErr.typeError "int argument must not be None")
  | PyValue.datetime _ => Except.error (PyErr.typeError "int argument must not be datetime")

/-- Splits a character list on a separator character. -/
def splitOnChar (sep : Char) : List Char → List (List Char)
  | [] => [[]]
  | c :: cs =>
      let r := splitOnChar sep cs
      if c = sep then [] :: r
      else
        match r with
        | [] => [[c]]
        | g :: gs => (c :: g) :: gs

/-- Modelled from the spec: `robot.libraries.DateTime.convert_date` with
epoch result format is an external library, not code under src/; per the
spec, expiry accepts a structured date/time string converted to epoch.
Modelled for the standard format YYYY-MM-DD HH:MM:SS (UTC); anything
else is a conversion error. -/
def convert_date (s : String) : Except PyErr Int :=
  match splitOnChar ' ' s.data with
  | [date, time] =>
      match splitOnChar '-' date, splitOnChar ':' time with
      | [ys, ms, ds], [hs, mins, ss] =>
          match strDigits ys, strDigits ms, strDigits ds,
              strDigits hs, strDigits mins, strDigits ss with
          | some y, some mo, some d, some h, some mi, some sec =>
              Except.ok (daysFromCivil (y : Int) mo d * 86400 +
                ((h * 3600 + mi * 60 + sec : Nat) : Int))
          | _, _, _, _, _, _ => Except.error (PyErr.valueError "invalid date format")
      | _, _ => Except.error (PyErr.valueError "invalid date format")
  | _ => Except.error (PyErr.valueError "invalid date format")

/-- Embeds `CookieKeywords._expiry` (cookie.py lines 131-135),
parameterised by the external `convert_date` function: try Python
`int()` first, and only on `ValueError` fall back to date conversion.
Other exception kinds from `int()` are not caught. -/
def _expiry (convert : String → Except PyErr Int) (expiry : PyValue) : Except PyErr Int :=
  match pyInt expiry with
  | Except.ok n => Except.ok n
  | Except.error (PyErr.valueError m) =>
      match expiry with
      | PyValue.str s => convert s
      | _ => Except.error (PyErr.valueError m)
  | Except.error e => Except.error e

/-- The conditional `path` entry of the dict built by `add_cookie`
(cookie.py lines 120-121). -/
def pathPart (path : PyValue) : List (String × PyValue) :=
  if is_noney path then [] else [("path", path)]

/-- The conditional `domain` entry of the dict built by `add_cookie`
(cookie.py lines 122-123). -/
def domainPart (domain : PyValue) : List (String × PyValue) :=
  if is_noney domain then [] else [("domain", domain)]

/-- The conditional `secure` entry of the dict built by `add_cookie`
(cookie.py lines 125-126): the value is coerced through `is_truthy`. -/
def securePart (secure : PyValue) : List (String × PyValue) :=
  if is_noney secure then [] else [("secure", PyValue.bool (is_truthy secure))]

/-- The conditional `expiry` entry of the dict built by `add_cookie`
(cookie.py lines 127-128): the value goes through `_expiry` and an
exception raised there aborts the keyword. -/
def expiryPart (convert : String → Except PyErr Int) (expiry : PyValue) :
    Except PyErr (List (String × PyValue)) :=
  if is_noney expiry then Except.ok []
  else (_expiry convert expiry).map (fun e => [("expiry", PyValue.int e)])

/-- Embeds `CookieKeywords.add_cookie` (cookie.py lines 101-129): the
wire dict handed to `browser.add_cookie`, built from `name` and `value`
plus the conditional optional entries, in source order. -/
def add_cookie (convert : String → Except PyErr Int)
    (name value path domain secure expiry : PyValue) :
    Except PyErr (List (String × PyValue)) :=
  let new_cookie := [("name", name), ("value", value)]
  let new_cookie := new_cookie ++ pathPart path
  let new_cookie := new_cookie ++ domainPart domain
  let new_cookie := new_cookie ++ securePart secure
  match expiryPart convert expiry with
  | Except.ok part => Except.ok (new_cookie ++ part)
  | Except.error e => Except.error e

/-- The structured cookie record built by `CookieInformation.__init__`
(cookie.py lines 138-148). The `expiry` attribute is a calendar
timestamp or `None`; every other attribute keeps the Python value it
was given (or its default). -/
structure CookieInformation where
  name : PyValue
  value : PyValue
  path : PyValue
  domain : PyValue
  secure : PyValue
  httpOnly : PyValue
  expiry : Option Datetime
  deriving Repr, DecidableEq

/-- The parameter names of `CookieInformation.__init__`: the keys a wire
dict may supply through Python `**` keyword expansion. -/
def cookieKeys : List String :=
  ["name", "value", "path", "domain", "secure", "httpOnly", "expiry"]

/-- Embeds `CookieInformation(**cookie)` (cookie.py lines 99 and
140-148): a key outside the parameter list or a missing `name`/`value`
raises `TypeError`; defaults are `None` for `path`/`domain`/`expiry` and
`False` for `secure`/`httpOnly`; `expiry` is converted with
`datetime.fromtimestamp` when (Python-)truthy, and must then be a
number, else it stays `None`. -/
def CookieInformation.ofKwargs (m : List (String × PyValue)) :
    Except PyErr CookieInformation :=
  if ∀ kv ∈ m, kv.1 ∈ cookieKeys then
    match dictGet "name" m, dictGet "value" m with
    | some n, some v =>
        let path := (dictGet "path" m).getD PyValue.none
        let domain := (dictGet "domain" m).getD PyValue.none
        let secure := (dictGet "secure" m).getD (PyValue.bool false)
        let httpOnly := (dictGet "httpOnly" m).getD (PyValue.bool false)
        let expiryVal := (dictGet "expiry" m).getD PyValue.none
        if pyTruthy expiryVal then
          match expiryVal with
          | PyValue.int e =>
              Except.ok ⟨n, v, path, domain, secure, httpOnly,
                some (Datetime.fromtimestamp e)⟩
          | _ => Except.error (PyErr.typeError "fromtimestamp argument must be a number")
        else Except.ok ⟨n, v, path, domain, secure, httpOnly, Option.none⟩
    | _, _ => Except.error (PyErr.typeError "missing required argument name or value")
  else Except.error (PyErr.typeError "unexpected keyword argument")

/-- Feeding the attributes of a `CookieInformation` record back into
`add_cookie`: the composition direction domain-to-wire. The `expiry`
attribute is passed as the Python object it is, a `datetime` or `None`. -/
def CookieInformation.to_wire (convert : String → Except PyErr Int)
    (c : CookieInformation) : Except PyErr (List (String × PyValue)) :=
  add_cookie convert c.name c.value c.path c.domain c.secure
    (match c.expiry with
     | some d => PyValue.datetime d
     | Option.none => PyValue.none)

/-- Embeds `CookieKeywords.get_cookie` (cookie.py lines 96-99) given the
browser response: raise `CookieNotFound` when `browser.get_cookie`
returns a falsy value (`None` or an empty dict), otherwise build the
`CookieInformation` record. The quoting of the name in the message is
elided. -/
def get_cookie (name : String) (browserCookie : Option (List (String × PyValue))) :
    Except PyErr CookieInformation :=
  match browserCookie with
  | Option.none =>
      Except.error (PyErr.cookieNotFound ("Cookie with name " ++ name ++ " not found."))
  | some c =>
      if c.isEmpty then
        Except.error (PyErr.cookieNotFound ("Cookie with name " ++ name ++ " not found."))
      else CookieInformation.ofKwargs c

/-- The loop body of `get_cookies` (cookie.py lines 50-52): for each
cookie dict, `cookie[name] + "=" + cookie[value]`; a missing key raises
`KeyError` and a non-string value raises `TypeError` at the first
offending cookie, in order. -/
def get_cookies_pairs : List (List (String × PyValue)) → Except PyErr (List String)
  | [] => Except.ok []
  | c :: rest =>
      match dictGet "name" c with
      | Option.none => Except.error (PyErr.keyError "name")
      | some nv =>
          match dictGet "value" c with
          | Option.none => Except.error (PyErr.keyError "value")
          | some vv =>
              match nv, vv with
              | PyValue.str n, PyValue.str v =>
                  (get_cookies_pairs rest).map (fun ps => (n ++ "=" ++ v) :: ps)
              | _, _ => Except.error (PyErr.typeError "can only concatenate str to str")

/-- Embeds `CookieKeywords.get_cookies` (cookie.py lines 41-53) given the
browser response: the pairs joined with a semicolon and a space. -/
def get_cookies (cookies : List (List (String × PyValue))) : Except PyErr String :=
  (get_cookies_pairs cookies).map (String.intercalate "; ")

/-- The library state touched by the failure hook: the attributes
`run_on_failure_keyword` (a keyword name string or `None`) and
`_running_on_failure_keyword` (the re-entrancy guard flag) of
`SeleniumLibrary` — field names without the leading underscore. -/
structure FailState where
  run_on_failure_keyword : Option String
  running_on_failure_keyword : Bool
  deriving Repr, DecidableEq

/-- Python falsiness of the `run_on_failure_keyword` attribute, as tested
by `not self.run_on_failure_keyword`: `None` or the empty string. -/
def hookUnset (s : FailState) : Bool :=
  match s.run_on_failure_keyword with
  | Option.none => true
  | some k => k == ""

/-- Python `str()` of the keyword attribute, as interpolated into the
warning message. -/
def hookRepr : Option String → String
  | Option.none => "None"
  | some k => k

/-- The outcome of one `failure_occurred` call: the final library state,
the warnings logged, and how many times the registered hook keyword was
actually run. -/
structure FailureResult where
  state : FailState
  logs : List String
  hookRuns : Nat
  deriving Repr, DecidableEq

/-- Embeds `SeleniumLibrary.failure_occurred` (lines 340-356 of
SeleniumLibrary/init): return immediately when the guard flag is set or
no hook keyword is registered; otherwise set the flag, run the hook
keyword once (`hook` maps the state it sees to the state it leaves and
the exception it raises, if any), log a warning instead of propagating a
hook exception, and clear the flag in the `finally` block. The warning
message reads the `run_on_failure_keyword` attribute after the hook ran;
its quoting of the keyword name is elided. -/
def failure_occurred (hook : FailState → FailState × Option String)
    (s : FailState) : FailureResult :=
  if s.running_on_failure_keyword || hookUnset s then ⟨s, [], 0⟩
  else
    let s1 := { s with running_on_failure_keyword := true }
    let out := hook s1
    let logs := match out.2 with
      | some msg =>
          ["Keyword " ++ hookRepr out.1.run_on_failure_keyword ++
            " could not be run on failure: " ++ msg]
      | Option.none => []
    ⟨{ out.1 with running_on_failure_keyword := false }, logs, 1⟩

/-- The outcome of one `run_keyword` call: what propagates to the caller,
the final library state, how many times `failure_occurred` was invoked,
and the warnings it logged. -/
structure RunKeywordResult (α : Type) where
  result : Except PyErr α
  state : FailState
  dispatcherCalls : Nat
  logs : List String

/-- Embeds `SeleniumLibrary.run_keyword` (lines 330-335 of
SeleniumLibrary/init) given the outcome `exec` of the dispatched keyword
and the library state `s` it left behind: on success pass the value
through; on an exception invoke `failure_occurred` once and re-raise the
original exception. -/
def run_keyword (α : Type) (hook : FailState → FailState × Option String)
    (s : FailState) (exec : Except PyErr α) : RunKeywordResult α :=
  match exec with
  | Except.ok v => ⟨Except.ok v, s, 0, []⟩
  | Except.error e =>
      let r := failure_occurred hook s
      ⟨Except.error e, r.state, 1, r.logs⟩

theorem dictGet_eq_none {k : String} {m : List (String × PyValue)}
    (h : ∀ kv ∈ m, kv.1 ≠ k) : dictGet k m = Option.none := by
  induction m with
  | nil => rfl
  | cons kv rest ih =>
      simp only [dictGet]
      rw [if_neg (h kv (List.mem_cons_self kv rest))]
      exact ih fun kv2 h2 => h kv2 (List.mem_cons_of_mem kv h2)

/-- Claim C1: for every inbound keyword invocation that fails with an
exception `e`, the failure-hook dispatcher `failure_occurred` is invoked
exactly once before the original exception is re-raised, the propagated
result is the original exception whatever the hook does, and an
exception the hook raises is only logged as a warning. -/
theorem C1_failure_hook_dispatch
    (hook : FailState → FailState × Option String) (s : FailState) (e : PyErr) :
    (run_keyword PyValue hook s (Except.error e)).dispatcherCalls = 1 ∧
    (run_keyword PyValue hook s (Except.error e)).result = Except.error e ∧
    (∀ t msg, s.running_on_failure_keyword = false → hookUnset s = false →
      hook { s with running_on_failure_keyword := true } = (t, some msg) →
      (run_keyword PyValue hook s (Except.error e)).logs =
        ["Keyword " ++ hookRepr t.run_on_failure_keyword ++
          " could not be run on failure: " ++ msg]) := by
  refine ⟨rfl, rfl, ?_⟩
  intro t msg hrun hunset hhook
  simp only [run_keyword, failure_occurred, hrun, hunset, Bool.or_self, if_false,
    Bool.false_eq_true, hhook]

/-- Witness for C1 at a concrete failing keyword, a registered hook that
itself raises, and a concrete original exception. -/
theorem C1_witness :
    (run_keyword PyValue (fun s => (s, some "boom")) ⟨some "k", false⟩
      (Except.error (PyErr.valueError "original"))).dispatcherCalls = 1 ∧
    (run_keyword PyValue (fun s => (s, some "boom")) ⟨some "k", false⟩
      (Except.error (PyErr.valueError "original"))).result =
        Except.error (PyErr.valueError "original") ∧
    (run_keyword PyValue (fun s => (s, some "boom")) ⟨some "k", false⟩
      (Except.error (PyErr.valueError "original"))).logs =
        ["Keyword k could not be run on failure: boom"] := by
  have h := C1_failure_hook_dispatch (fun s => (s, some "boom")) ⟨some "k", false⟩
    (PyErr.valueError "original")
  exact ⟨h.1, h.2.1, h.2.2 ⟨some "k", true⟩ "boom" rfl rfl rfl⟩

/-- Claim C6: within one `failure_occurred` call the registered hook runs
at most once, and a call made while the hook is already executing (guard
flag set) is a no-op for every possible hook behaviour: state unchanged,
nothing logged, the hook not run. -/
theorem C6_reentrancy_guard (hook : FailState → FailState × Option String)
    (s : FailState) :
    (failure_occurred hook s).hookRuns ≤ 1 ∧
    (s.running_on_failure_keyword = true → failure_occurred hook s = ⟨s, [], 0⟩) := by
  constructor
  · unfold failure_occurred
    by_cases h : (s.running_on_failure_keyword || hookUnset s) = true
    · simp [h]
    · simp [h]
  · intro h
    unfold failure_occurred
    simp [h]

/-- Witness for C6 at a concrete state whose guard flag is set and a hook
that would raise if it ran. -/
theorem C6_witness :
    (failure_occurred (fun s => (s, some "boom")) ⟨some "k", true⟩).hookRuns ≤ 1 ∧
    failure_occurred (fun s => (s, some "boom")) ⟨some "k", true⟩ =
      ⟨⟨some "k", true⟩, [], 0⟩ := by
  have h := C6_reentrancy_guard (fun s => (s, some "boom")) ⟨some "k", true⟩
  exact ⟨h.1, h.2 rfl⟩

/-- Claim C7: when the browser session reports no matching cookie —
`browser.get_cookie` returns `None` (or the equally falsy empty dict) —
`get_cookie` raises `CookieNotFound` rather than returning a value. -/
theorem C7_cookie_not_found (name : String) :
    get_cookie name Option.none =
      Except.error (PyErr.cookieNotFound ("Cookie with name " ++ name ++ " not found.")) ∧
    get_cookie name (some []) =
      Except.error (PyErr.cookieNotFound ("Cookie with name " ++ name ++ " not found.")) :=
  ⟨rfl, rfl⟩

/-- Counterexample to claim C8 as stated: a `failure_occurred` call that
completes because the re-entrancy guard skipped it (a nested call during
hook execution) leaves the guard flag `True`, not `False`. -/
theorem C8_counterexample :
    (failure_occurred (fun s => (s, Option.none))
      ⟨some "k", true⟩).state.running_on_failure_keyword = true := rfl

/-- Claim C8 as amended: after any completed `failure_occurred` call that
was entered with the guard flag `False` — hook ran, raised, or was
skipped because no hook is registered — the flag is `False` again; only
a nested call skipped by the re-entrancy guard leaves it `True` until
the outer call completes. -/
theorem C8_guard_reset (hook : FailState → FailState × Option String)
    (s : FailState) (h : s.running_on_failure_keyword = false) :
    (failure_occurred hook s).state.running_on_failure_keyword = false := by
  unfold failure_occurred
  split
  · exact h
  · rfl

/-- Witness for C8 at a concrete guard-clear state and a hook that raises. -/
theorem C8_witness :
    (failure_occurred (fun s => (s, some "boom"))
      ⟨some "k", false⟩).state.running_on_failure_keyword = false :=
  C8_guard_reset (fun s => (s, some "boom")) ⟨some "k", false⟩ rfl

/-- Claim C4: `_expiry` tries the Python-integer interpretation first and
uses date conversion only when that raises `ValueError`; in particular a
numeric string is always taken as epoch seconds, for every possible
behaviour of the date converter. -/
theorem C4_expiry_int_first (convert : String → Except PyErr Int) (x : PyValue) :
    (∀ n, pyInt x = Except.ok n → _expiry convert x = Except.ok n) ∧
    (∀ s n, x = PyValue.str s → pyIntOfString s = some n →
      _expiry convert x = Except.ok n) ∧
    (∀ s m, x = PyValue.str s → pyInt x = Except.error (PyErr.valueError m) →
      _expiry convert x = convert s) := by
  refine ⟨?_, ?_, ?_⟩
  · intro n h
    unfold _expiry
    rw [h]
  · intro s n hx h
    subst hx
    unfold _expiry
    simp [pyInt, h]
  · intro s m hx h
    subst hx
    unfold _expiry
    rw [h]

/-- Witness for C4: the numeric string from the add_cookie docstring is
taken as epoch seconds, and a date-formatted string falls through to the
converter. -/
theorem C4_witness :
    _expiry convert_date (PyValue.str "1822137695") = Except.ok 1822137695 ∧
    _expiry convert_date (PyValue.str "2027-09-28 16:21:35") =
      convert_date "2027-09-28 16:21:35" := by
  have h1 := C4_expiry_int_first convert_date (PyValue.str "1822137695")
  have h2 := C4_expiry_int_first convert_date (PyValue.str "2027-09-28 16:21:35")
  exact ⟨h1.2.1 "1822137695" 1822137695 rfl (by decide),
    h2.2.2 "2027-09-28 16:21:35" "invalid literal for int" rfl (by decide)⟩

/-- Claim C5: the scenario of spec section 8 — `add_cookie` with
expiry=2027-09-28 16:21:35, a browser session that returns on
`get_cookie` the same wire dict `add_cookie` sent, and a resulting
cookie record whose expiry year is 2027. -/
theorem C5_expiry_scenario :
    ∃ m c d,
      add_cookie convert_date (PyValue.str "foo") (PyValue.str "bar")
          PyValue.none PyValue.none PyValue.none
          (PyValue.str "2027-09-28 16:21:35") = Except.ok m ∧
      get_cookie "foo" (some m) = Except.ok c ∧
      c.expiry = some d ∧
      d.year = 2027 :=
  ⟨[("name", PyValue.str "foo"), ("value", PyValue.str "bar"),
      ("expiry", PyValue.int 1822148495)],
    ⟨PyValue.str "foo", PyValue.str "bar", PyValue.none, PyValue.none,
      PyValue.bool false, PyValue.bool false, some ⟨2027, 9, 28, 16, 21, 35⟩⟩,
    ⟨2027, 9, 28, 16, 21, 35⟩, by decide, by decide, rfl, rfl⟩

theorem pathPart_keys (p : PyValue) : ∀ kv ∈ pathPart p, kv.1 = "path" := by
  unfold pathPart
  split <;> simp

theorem domainPart_keys (p : PyValue) : ∀ kv ∈ domainPart p, kv.1 = "domain" := by
  unfold domainPart
  split <;> simp

theorem securePart_keys (p : PyValue) : ∀ kv ∈ securePart p, kv.1 = "secure" := by
  unfold securePart
  split <;> simp

theorem expiryPart_keys (convert : String → Except PyErr Int) (e : PyValue)
    (part : List (String × PyValue)) (h : expiryPart convert e = Except.ok part) :
    ∀ kv ∈ part, kv.1 = "expiry" := by
  unfold expiryPart at h
  split at h
  · cases h
    simp
  · cases hx : _expiry convert e with
    | error er => rw [hx] at h; cases h
    | ok n =>
        rw [hx] at h
        cases h
        simp

/-- Claim C9: whenever `add_cookie` succeeds, the wire dict it hands to
the browser contains `name` and `value`, contains only keys from
name/value/path/domain/secure/expiry, and never contains an `httpOnly`
key — the http-only flag cannot be set through `add_cookie`. -/
theorem C9_wire_keys (convert : String → Except PyErr Int)
    (name value path domain secure expiry : PyValue)
    (m : List (String × PyValue))
    (h : add_cookie convert name value path domain secure expiry = Except.ok m) :
    dictGet "name" m = some name ∧ dictGet "value" m = some value ∧
    (∀ kv ∈ m, kv.1 ∈ (["name", "value", "path", "domain", "secure", "expiry"] :
      List String)) ∧
    dictGet "httpOnly" m = Option.none := by
  unfold add_cookie at h
  cases hexp : expiryPart convert expiry with
  | error er => rw [hexp] at h; cases h
  | ok part =>
      rw [hexp] at h
      cases h
      have hkeys : ∀ kv ∈ ([("name", name), ("value", value)] ++ pathPart path ++
          domainPart domain ++ securePart secure ++ part),
          kv.1 ∈ (["name", "value", "path", "domain", "secure", "expiry"] :
            List String) := by
        intro kv hkv
        simp only [List.mem_append, List.mem_cons, List.not_mem_nil, or_false] at hkv
        rcases hkv with ((((hkv | hkv) | hkv) | hkv) | hkv) | hkv
        · rw [hkv]; simp
        · rw [hkv]; simp
        · rw [pathPart_keys path kv hkv]; simp
        · rw [domainPart_keys domain kv hkv]; simp
        · rw [securePart_keys secure kv hkv]; simp
        · rw [expiryPart_keys convert expiry part hexp kv hkv]; simp
      refine ⟨by simp [dictGet], by simp [dictGet], hkeys, ?_⟩
      refine dictGet_eq_none fun kv hkv => ?_
      have := hkeys kv hkv
      simp only [List.mem_cons, List.not_mem_nil, or_false] at this
      rcases this with h1 | h1 | h1 | h1 | h1 | h1 <;> rw [h1] <;> decide

/-- Witness for C9 at a concrete successful `add_cookie` call that sets
every optional argument. -/
theorem C9_witness :
    dictGet "name" [("name", PyValue.str "foo"), ("value", PyValue.str "bar"),
        ("path", PyValue.str "/p"), ("domain", PyValue.str "example.com"),
        ("secure", PyValue.bool true), ("expiry", PyValue.int 1822137695)] =
      some (PyValue.str "foo") ∧
    dictGet "value" [("name", PyValue.str "foo"), ("value", PyValue.str "bar"),
        ("path", PyValue.str "/p"), ("domain", PyValue.str "example.com"),
        ("secure", PyValue.bool true), ("expiry", PyValue.int 1822137695)] =
      some (PyValue.str "bar") ∧
    (∀ kv ∈ ([("name", PyValue.str "foo"), ("value", PyValue.str "bar"),
        ("path", PyValue.str "/p"), ("domain", PyValue.str "example.com"),
        ("secure", PyValue.bool true), ("expiry", PyValue.int 1822137695)] :
          List (String × PyValue)),
      kv.1 ∈ (["name", "value", "path", "domain", "secure", "expiry"] : List String)) ∧
    dictGet "httpOnly" [("name", PyValue.str "foo"), ("value", PyValue.str "bar"),
        ("path", PyValue.str "/p"), ("domain", PyValue.str "example.com"),
        ("secure", PyValue.bool true), ("expiry", PyValue.int 1822137695)] =
      Option.none :=
  C9_wire_keys convert_date (PyValue.str "foo") (PyValue.str "bar")
    (PyValue.str "/p") (PyValue.str "example.com") (PyValue.bool true)
    (PyValue.str "1822137695") _ (by decide)

/-- The string a cookie contributes to the `get_cookies` result: its
name and value fields, which the hypotheses of C10 require to be strings. -/
def strField (k : String) (c : List (String × PyValue)) : String :=
  match dictGet k c with
  | some (PyValue.str s) => s
  | _ => ""

theorem get_cookies_pairs_eq :
    ∀ cookies : List (List (String × PyValue)),
    (∀ c ∈ cookies, (∃ n, dictGet "name" c = some (PyValue.str n)) ∧
      (∃ v, dictGet "value" c = some (PyValue.str v))) →
    get_cookies_pairs cookies =
      Except.ok (cookies.map fun c => strField "name" c ++ "=" ++ strField "value" c)
  | [], _ => rfl
  | c :: rest, h => by
      obtain ⟨⟨n, hn⟩, v, hv⟩ := h c (List.mem_cons_self c rest)
      have hrest := get_cookies_pairs_eq rest
        (fun c2 h2 => h c2 (List.mem_cons_of_mem c h2))
      unfold get_cookies_pairs
      rw [hn, hv, hrest]
      simp [Except.map, strField, hn, hv]

/-- Claim C10: for every browser cookie list whose entries carry string
name and value fields, `get_cookies` returns the single string joining
name=value pairs with a semicolon and a space, in the browser order; the
empty list (no cookies) gives the empty string as the instance at the
empty list. -/
theorem C10_cookies_string (cookies : List (List (String × PyValue)))
    (h : ∀ c ∈ cookies, (∃ n, dictGet "name" c = some (PyValue.str n)) ∧
      (∃ v, dictGet "value" c = some (PyValue.str v))) :
    get_cookies cookies =
      Except.ok (String.intercalate "; "
        (cookies.map fun c => strField "name" c ++ "=" ++ strField "value" c)) := by
  unfold get_cookies
  rw [get_cookies_pairs_eq cookies h]
  rfl

/-- Witness for C10 at a concrete two-cookie browser response. -/
theorem C10_witness :
    get_cookies [[("name", PyValue.str "a"), ("value", PyValue.str "1")],
      [("name", PyValue.str "b"), ("value", PyValue.str "2")]] =
      Except.ok "a=1; b=2" := by
  have h := C10_cookies_string
    [[("name", PyValue.str "a"), ("value", PyValue.str "1")],
      [("name", PyValue.str "b"), ("value", PyValue.str "2")]]
    (by
      intro c hc
      rcases List.mem_cons.mp hc with rfl | hc
      · exact ⟨⟨"a", rfl⟩, "1", rfl⟩
      rcases List.mem_cons.mp hc with rfl | hc
      · exact ⟨⟨"b", rfl⟩, "2", rfl⟩
      cases hc)
  rw [h]
  rfl

theorem ofKwargs_eval (m : List (String × PyValue))
    (hkeys : ∀ kv ∈ m, kv.1 ∈ cookieKeys) (n v : PyValue)
    (hn : dictGet "name" m = some n) (hv : dictGet "value" m = some v) :
    CookieInformation.ofKwargs m =
      (if pyTruthy ((dictGet "expiry" m).getD PyValue.none) then
        match (dictGet "expiry" m).getD PyValue.none with
        | PyValue.int e =>
            Except.ok ⟨n, v, (dictGet "path" m).getD PyValue.none,
              (dictGet "domain" m).getD PyValue.none,
              (dictGet "secure" m).getD (PyValue.bool false),
              (dictGet "httpOnly" m).getD (PyValue.bool false),
              some (Datetime.fromtimestamp e)⟩
        | _ => Except.error (PyErr.typeError "fromtimestamp argument must be a number")
      else
        Except.ok ⟨n, v, (dictGet "path" m).getD PyValue.none,
          (dictGet "domain" m).getD PyValue.none,
          (dictGet "secure" m).getD (PyValue.bool false),
          (dictGet "httpOnly" m).getD (PyValue.bool false), Option.none⟩) := by
  unfold CookieInformation.ofKwargs
  rw [if_pos hkeys, hn, hv]

/-- Counterexample to claim C3 as stated: a wire map that contains the
expiry field with epoch value 0 still yields a record whose expiry is
absent, because `CookieInformation.__init__` tests plain truthiness
(`if expiry`), not presence; so expiry is not absent exactly when the
wire map omits the field. -/
theorem C3_counterexample :
    CookieInformation.ofKwargs [("name", PyValue.str "a"), ("value", PyValue.str "b"),
        ("expiry", PyValue.int 0)] =
      Except.ok ⟨PyValue.str "a", PyValue.str "b", PyValue.none, PyValue.none,
        PyValue.bool false, PyValue.bool false, Option.none⟩ ∧
    dictGet "expiry" [("name", PyValue.str "a"), ("value", PyValue.str "b"),
      ("expiry", PyValue.int 0)] = some (PyValue.int 0) := by decide

/-- Claim C3 as amended: for every wire map containing name and value
(and only recognized keys, with any expiry given as an integer), the
record copies every field verbatim — with the declared defaults for
omitted ones — except expiry, which is the calendar timestamp obtained
from the epoch-seconds integer; expiry is absent (None) exactly when the
wire map omits the field or gives it the falsy epoch value 0. -/
theorem C3_to_domain_fields (m : List (String × PyValue))
    (hkeys : ∀ kv ∈ m, kv.1 ∈ cookieKeys) (n v : PyValue)
    (hn : dictGet "name" m = some n) (hv : dictGet "value" m = some v)
    (hexp : dictGet "expiry" m = Option.none ∨
      ∃ i, dictGet "expiry" m = some (PyValue.int i)) :
    ∃ c, CookieInformation.ofKwargs m = Except.ok c ∧
      c.name = n ∧ c.value = v ∧
      c.path = (dictGet "path" m).getD PyValue.none ∧
      c.domain = (dictGet "domain" m).getD PyValue.none ∧
      c.secure = (dictGet "secure" m).getD (PyValue.bool false) ∧
      c.httpOnly = (dictGet "httpOnly" m).getD (PyValue.bool false) ∧
      (∀ i, dictGet "expiry" m = some (PyValue.int i) → i ≠ 0 →
        c.expiry = some (Datetime.fromtimestamp i)) ∧
      ((dictGet "expiry" m = Option.none ∨ dictGet "expiry" m = some (PyValue.int 0)) →
        c.expiry = Option.none) := by
  rcases hexp with hexp | ⟨i, hexp⟩
  · rw [ofKwargs_eval m hkeys n v hn hv, hexp]
    refine ⟨_, rfl, rfl, rfl, rfl, rfl, rfl, rfl, ?_, ?_⟩
    · intro j hj
      cases hj
    · intro _
      rfl
  · rw [ofKwargs_eval m hkeys n v hn hv, hexp]
    simp only [Option.getD_some]
    by_cases hi0 : i = 0
    · subst hi0
      refine ⟨_, rfl, rfl, rfl, rfl, rfl, rfl, rfl, ?_, ?_⟩
      · intro j hj hj0
        injection hj with h1
        injection h1 with h2
        exact absurd h2.symm hj0
      · intro _
        rfl
    · have hcond : pyTruthy (PyValue.int i) = true := by simp [pyTruthy, hi0]
      rw [if_pos hcond]
      refine ⟨_, rfl, rfl, rfl, rfl, rfl, rfl, rfl, ?_, ?_⟩
      · intro j hj hj0
        injection hj with h1
        injection h1 with h2
        rw [← h2]
      · intro h9
        rcases h9 with h9 | h9
        · cases h9
        · injection h9 with h1
          injection h1 with h2
          exact absurd h2 hi0

/-- Witness for the amended C3 at a concrete wire map that sets path and
a nonzero expiry. -/
theorem C3_witness :
    ∃ c, CookieInformation.ofKwargs [("name", PyValue.str "n1"),
        ("value", PyValue.str "v1"), ("path", PyValue.str "/p"),
        ("expiry", PyValue.int 5)] = Except.ok c ∧
      c.name = PyValue.str "n1" ∧ c.value = PyValue.str "v1" ∧
      c.path = (dictGet "path" [("name", PyValue.str "n1"),
        ("value", PyValue.str "v1"), ("path", PyValue.str "/p"),
        ("expiry", PyValue.int 5)]).getD PyValue.none ∧
      c.domain = (dictGet "domain" [("name", PyValue.str "n1"),
        ("value", PyValue.str "v1"), ("path", PyValue.str "/p"),
        ("expiry", PyValue.int 5)]).getD PyValue.none ∧
      c.secure = (dictGet "secure" [("name", PyValue.str "n1"),
        ("value", PyValue.str "v1"), ("path", PyValue.str "/p"),
        ("expiry", PyValue.int 5)]).getD (PyValue.bool false) ∧
      c.httpOnly = (dictGet "httpOnly" [("name", PyValue.str "n1"),
        ("value", PyValue.str "v1"), ("path", PyValue.str "/p"),
        ("expiry", PyValue.int 5)]).getD (PyValue.bool false) ∧
      (∀ i, dictGet "expiry" [("name", PyValue.str "n1"),
          ("value", PyValue.str "v1"), ("path", PyValue.str "/p"),
          ("expiry", PyValue.int 5)] = some (PyValue.int i) → i ≠ 0 →
        c.expiry = some (Datetime.fromtimestamp i)) ∧
      ((dictGet "expiry" [("name", PyValue.str "n1"),
          ("value", PyValue.str "v1"), ("path", PyValue.str "/p"),
          ("expiry", PyValue.int 5)] = Option.none ∨
        dictGet "expiry" [("name", PyValue.str "n1"),
          ("value", PyValue.str "v1"), ("path", PyValue.str "/p"),
          ("expiry", PyValue.int 5)] = some (PyValue.int 0)) →
        c.expiry = Option.none) :=
  C3_to_domain_fields
    [("name", PyValue.str "n1"), ("value", PyValue.str "v1"),
      ("path", PyValue.str "/p"), ("expiry", PyValue.int 5)]
    (by decide) (PyValue.str "n1") (PyValue.str "v1") rfl rfl (Or.inr ⟨5, rfl⟩)

/-- Counterexample to claim C2 as stated: the wire map
name=a, value=b, httpOnly=true has only recognized keys and contains
name and value, yet its round trip through the domain record drops the
httpOnly field (`add_cookie` has no httpOnly parameter) and materialises
the omitted secure field as secure=false, so the result does not
reproduce the map. -/
theorem C2_counterexample :
    (CookieInformation.ofKwargs
        [("name", PyValue.str "a"), ("value", PyValue.str "b"),
          ("httpOnly", PyValue.bool true)]).bind
      (CookieInformation.to_wire convert_date) =
      Except.ok [("name", PyValue.str "a"), ("value", PyValue.str "b"),
        ("secure", PyValue.bool false)] ∧
    dictGet "httpOnly" [("name", PyValue.str "a"), ("value", PyValue.str "b"),
      ("httpOnly", PyValue.bool true)] = some (PyValue.bool true) ∧
    dictGet "httpOnly" [("name", PyValue.str "a"), ("value", PyValue.str "b"),
      ("secure", PyValue.bool false)] = Option.none ∧
    dictGet "secure" [("name", PyValue.str "a"), ("value", PyValue.str "b"),
      ("httpOnly", PyValue.bool true)] = Option.none := by decide

theorem mem_cookieKeys_of_mem_addable (x : String)
    (hx : x ∈ (["name", "value", "path", "domain", "secure"] : List String)) :
    x ∈ cookieKeys := by
  simp only [cookieKeys, List.mem_cons, List.not_mem_nil, or_false] at hx ⊢
  tauto

theorem ne_of_mem_addable (x k : String)
    (hx : x ∈ (["name", "value", "path", "domain", "secure"] : List String))
    (h1 : ¬ k = "name") (h2 : ¬ k = "value") (h3 : ¬ k = "path")
    (h4 : ¬ k = "domain") (h5 : ¬ k = "secure") : x ≠ k := by
  simp only [List.mem_cons, List.not_mem_nil, or_false] at hx
  rcases hx with rfl | rfl | rfl | rfl | rfl
  · exact fun he => h1 he.symm
  · exact fun he => h2 he.symm
  · exact fun he => h3 he.symm
  · exact fun he => h4 he.symm
  · exact fun he => h5 he.symm

/-- Claim C2 as amended: the round trip reproduces exactly (as a dict,
key by key) every wire map whose keys are among name, value, path,
domain, secure — so no httpOnly and no expiry — that contains name and
value, whose secure field is present as a boolean, and whose path and
domain values, when present, are not None-like. A map with httpOnly is
never reproduced (the key is dropped, see the counterexample), an
omitted secure resurfaces as secure=false, and a present expiry is not
reproduced (the datetime value even makes the write-back raise
TypeError). -/
theorem C2_roundtrip_amended (m : List (String × PyValue)) (n v : PyValue) (b : Bool)
    (hkeys : ∀ kv ∈ m, kv.1 ∈ (["name", "value", "path", "domain", "secure"] :
      List String))
    (hn : dictGet "name" m = some n) (hv : dictGet "value" m = some v)
    (hs : dictGet "secure" m = some (PyValue.bool b))
    (hp : dictGet "path" m = Option.none ∨
      ∃ pv, dictGet "path" m = some pv ∧ is_noney pv = false)
    (hd : dictGet "domain" m = Option.none ∨
      ∃ dv, dictGet "domain" m = some dv ∧ is_noney dv = false) :
    ∃ w, (CookieInformation.ofKwargs m).bind (CookieInformation.to_wire convert_date) =
        Except.ok w ∧ ∀ k, dictGet k w = dictGet k m := by
  have hkeys7 : ∀ kv ∈ m, kv.1 ∈ cookieKeys :=
    fun kv hkv => mem_cookieKeys_of_mem_addable kv.1 (hkeys kv hkv)
  have hexpn : dictGet "expiry" m = Option.none :=
    dictGet_eq_none fun kv hkv =>
      ne_of_mem_addable kv.1 "expiry" (hkeys kv hkv)
        (by decide) (by decide) (by decide) (by decide) (by decide)
  rw [ofKwargs_eval m hkeys7 n v hn hv, hexpn, hs]
  rcases hp with hp | ⟨pv, hpv, hpn⟩ <;> rcases hd with hd | ⟨dv, hdv, hdn⟩
  · rw [hp, hd]
    refine ⟨_, rfl, ?_⟩
    intro k
    by_cases h1 : k = "name"
    · subst h1
      simp [dictGet, pathPart, domainPart, securePart, is_noney, hn]
    by_cases h2 : k = "value"
    · subst h2
      simp [dictGet, pathPart, domainPart, securePart, is_noney, hv]
    by_cases h3 : k = "path"
    · subst h3
      simp [dictGet, pathPart, domainPart, securePart, is_noney, hp]
    by_cases h4 : k = "domain"
    · subst h4
      simp [dictGet, pathPart, domainPart, securePart, is_noney, hd]
    by_cases h5 : k = "secure"
    · subst h5
      simp [dictGet, pathPart, domainPart, securePart, is_noney, is_truthy, hs]
    · have hm : dictGet k m = Option.none :=
        dictGet_eq_none fun kv hkv =>
          ne_of_mem_addable kv.1 k (hkeys kv hkv) h1 h2 h3 h4 h5
      rw [hm]
      simp [dictGet, pathPart, domainPart, securePart, is_noney,
        Ne.symm h1, Ne.symm h2, Ne.symm h3, Ne.symm h4, Ne.symm h5]
  · rw [hp, hdv]
    have hdd : domainPart dv = [("domain", dv)] := by
      unfold domainPart
      rw [hdn]
      rfl
    refine ⟨_, rfl, ?_⟩
    intro k
    by_cases h1 : k = "name"
    · subst h1
      simp [dictGet, pathPart, hdd, securePart, is_noney, is_truthy, hn]
    by_cases h2 : k = "value"
    · subst h2
      simp [dictGet, pathPart, hdd, securePart, is_noney, is_truthy, hv]
    by_cases h3 : k = "path"
    · subst h3
      simp [dictGet, pathPart, hdd, securePart, is_noney, is_truthy, hp]
    by_cases h4 : k = "domain"
    · subst h4
      simp [dictGet, pathPart, hdd, securePart, is_noney, is_truthy, hdv]
    by_cases h5 : k = "secure"
    · subst h5
      simp [dictGet, pathPart, hdd, securePart, is_noney, is_truthy, hs]
    · have hm : dictGet k m = Option.none :=
        dictGet_eq_none fun kv hkv =>
          ne_of_mem_addable kv.1 k (hkeys kv hkv) h1 h2 h3 h4 h5
      rw [hm]
      simp [dictGet, pathPart, hdd, securePart, is_noney, is_truthy,
        Ne.symm h1, Ne.symm h2, Ne.symm h3, Ne.symm h4, Ne.symm h5]
  · rw [hpv, hd]
    have hpp : pathPart pv = [("path", pv)] := by
      unfold pathPart
      rw [hpn]
      rfl
    refine ⟨_, rfl, ?_⟩
    intro k
    by_cases h1 : k = "name"
    · subst h1
      simp [dictGet, hpp, domainPart, securePart, is_noney, is_truthy, hn]
    by_cases h2 : k = "value"
    · subst h2
      simp [dictGet, hpp, domainPart, securePart, is_noney, is_truthy, hv]
    by_cases h3 : k = "path"
    · subst h3
      simp [dictGet, hpp, domainPart, securePart, is_noney, is_truthy, hpv]
    by_cases h4 : k = "domain"
    · subst h4
      simp [dictGet, hpp, domainPart, securePart, is_noney, is_truthy, hd]
    by_cases h5 : k = "secure"
    · subst h5
      simp [dictGet, hpp, domainPart, securePart, is_noney, is_truthy, hs]
    · have hm : dictGet k m = Option.none :=
        dictGet_eq_none fun kv hkv =>
          ne_of_mem_addable kv.1 k (hkeys kv hkv) h1 h2 h3 h4 h5
      rw [hm]
      simp [dictGet, hpp, domainPart, securePart, is_noney, is_truthy,
        Ne.symm h1, Ne.symm h2, Ne.symm h3, Ne.symm h4, Ne.symm h5]
  · rw [hpv, hdv]
    have hpp : pathPart pv = [("path", pv)] := by
      unfold pathPart
      rw [hpn]
      rfl
    have hdd : domainPart dv = [("domain", dv)] := by
      unfold domainPart
      rw [hdn]
      rfl
    refine ⟨_, rfl, ?_⟩
    intro k
    by_cases h1 : k = "name"
    · subst h1
      simp [dictGet, hpp, hdd, securePart, is_noney, is_truthy, hn]
    by_cases h2 : k = "value"
    · subst h2
      simp [dictGet, hpp, hdd, securePart, is_noney, is_truthy, hv]
    by_cases h3 : k = "path"
    · subst h3
      simp [dictGet, hpp, hdd, securePart, is_noney, is_truthy, hpv]
    by_cases h4 : k = "domain"
    · subst h4
      simp [dictGet, hpp, hdd, securePart, is_noney, is_truthy, hdv]
    by_cases h5 : k = "secure"
    · subst h5
      simp [dictGet, hpp, hdd, securePart, is_noney, is_truthy, hs]
    · have hm : dictGet k m = Option.none :=
        dictGet_eq_none fun kv hkv =>
          ne_of_mem_addable kv.1 k (hkeys kv hkv) h1 h2 h3 h4 h5
      rw [hm]
      simp [dictGet, hpp, hdd, securePart, is_noney, is_truthy,
        Ne.symm h1, Ne.symm h2, Ne.symm h3, Ne.symm h4, Ne.symm h5]

/-- Witness for the amended C2 at a concrete wire map with name, value
and secure present. -/
theorem C2_witness :
    ∃ w, (CookieInformation.ofKwargs [("name", PyValue.str "a"),
        ("value", PyValue.str "b"), ("secure", PyValue.bool true)]).bind
        (CookieInformation.to_wire convert_date) = Except.ok w ∧
      ∀ k, dictGet k w = dictGet k [("name", PyValue.str "a"),
        ("value", PyValue.str "b"), ("secure", PyValue.bool true)] :=
  C2_roundtrip_amended
    [("name", PyValue.str "a"), ("value", PyValue.str "b"),
      ("secure", PyValue.bool true)]
    (PyValue.str "a") (PyValue.str "b") true (by decide) rfl rfl rfl
    (Or.inl rfl) (Or.inl rfl)

end SeleniumSpec
